import Mathlib

/-!
# Verification of the job-grazer grey-out pipeline

Shallow embedding of `src/app/api/send/route.ts`: the `POST` request handler
(sheet resolution, header lookup, column read, matching, batched formatting
update) and the CSV extractor `extractProjectIDs` (PapaParse header mode).

The remote Google Sheets service is modelled as an environment supplying the
responses of the four remote calls the handler performs; the handler's result
is the HTTP response together with the list of `batchUpdate` calls it issued
(the only mutating calls). JavaScript strings are modelled as `String`,
`String.prototype.trim` as `jsTrim`, array accesses guarded by optional
chaining as `Option`-valued lookups, and thrown errors as `Except.error`.
-/

set_option autoImplicit false

namespace JobGrazer

/-- The fixed header label the pipeline looks for: `"案件ID"` ("project ID"). -/
def projectIDHeader : String := "案件ID"

/-- Model of `String.prototype.trim`: drop leading and trailing whitespace.
(Defined over the character list so that it evaluates inside the kernel;
`String.trim` itself is defined by well-founded recursion on byte positions
and does not reduce there.) -/
def jsTrim (s : String) : String :=
  ⟨((s.data.dropWhile Char.isWhitespace).reverse.dropWhile Char.isWhitespace).reverse⟩

/-! ## CSV extractor (`extractProjectIDs`, lines 238–291)

The source parses the uploaded CSV with PapaParse in header mode
(`header: true, skipEmptyLines: true`): row 1 supplies the field names and
each later row becomes a record assigning, for each cell index `j` below the
row's length, the value of cell `j` to field name `j` (a later assignment to
the same key overwrites an earlier one, as in a JavaScript object; a row
shorter than the header simply lacks the trailing keys). The extractor then

* rejects when there are zero (non-empty) data rows
  (`"CSV file is empty or could not be parsed."`, modelled `emptyInput`);
* looks for the first key of the **first data row's record**
  (`Object.keys(data[0])`) whose `trim()` equals `"案件ID"`, rejecting with
  `"CSV file does not contain a column named '案件ID'."` (modelled
  `headerNotFound`) when there is none;
* maps every record to `row[key] ? String(row[key]).trim() : ""` and keeps
  the non-empty results.

We embed the parsed grid (header row plus data rows) directly; a data line
that parsed empty (`[""]`) is dropped first, mirroring `skipEmptyLines`.
-/

/-- Errors of the extractor, named after the spec's taxonomy. -/
inductive ExtractError where
  | emptyInput
  | headerNotFound
  deriving DecidableEq, Repr

/-- Reading key `key` from the record PapaParse builds for `row` under
`header`: the record is built by assigning `header[j] := row[j]` for each
`j` below `row.length` in order, so a lookup sees the last assignment. -/
def recordGet (header row : List String) (key : String) : Option String :=
  (header.zip row).foldl (fun acc kv => if kv.1 = key then some kv.2 else acc) none

/-- The keys present in the first data row's record are the header names up
to that row's length; `extractProjectIDs` searches them in insertion order. -/
def extractProjectIDs (header : List String) (rows : List (List String)) :
    Except ExtractError (List String) :=
  let data := rows.filter (fun r => r ≠ [""])
  match data with
  | [] => .error .emptyInput
  | firstRow :: _ =>
    match (header.take firstRow.length).find? (fun k => jsTrim k == projectIDHeader) with
    | none => .error .headerNotFound
    | some projectIDKey =>
      let vals := data.map (fun row =>
        match recordGet header row projectIDKey with
        | some v => if v ≠ "" then jsTrim v else ""
        | none => "")
      .ok (vals.filter (fun s => s ≠ ""))

/-! ## Reconciler data model (`POST`, lines 42–197) -/

/-- `sheets.properties` as requested by the metadata call: both fields are
optional in the API response, and the handler guards both. -/
structure SheetProps where
  title : Option String
  sheetId : Option Int
  deriving DecidableEq, Repr

/-- A `GridRange` as built by the handler: only the row bounds are set
(`startRowIndex`/`endRowIndex`); the column bounds are omitted, so the
formatting applies to the whole row. -/
structure GridRange where
  sheetId : Int
  startRowIndex : Nat
  endRowIndex : Nat
  deriving DecidableEq, Repr

/-- RGB color; the source's floating-point literals `0.3` are carried as
rationals. -/
structure SheetColor where
  red : Rat
  green : Rat
  blue : Rat
  deriving DecidableEq, Repr

/-- The rational `3/10`, built directly in lowest terms (so that equality of
colors evaluates inside the kernel without normalization). -/
def threeTenths : Rat := ⟨3, 10, by decide, by norm_num⟩

/-- `GRAY_COLOR = { red: 0.3, green: 0.3, blue: 0.3 }` (line 7). -/
def GRAY_COLOR : SheetColor := ⟨threeTenths, threeTenths, threeTenths⟩

/-- One `repeatCell` formatting instruction as pushed by the matching loop. -/
structure RepeatCellRequest where
  range : GridRange
  backgroundColor : SheetColor
  fields : String
  deriving DecidableEq, Repr

/-- `projectIDColumn[i]?.[0]?` — the first cell of row `i` of the column
read, where the row entry itself may be absent. -/
def cellValue (column : List (Option (List String))) (i : Nat) : Option String :=
  ((column.get? i).bind id).bind List.head?

/-- The matching loop (lines 129–158): for `i = 1, …, length-1` take
`rowValue = projectIDColumn[i]?.[0]?.trim()`; when it is non-empty and an
exact member of `extractedProjectIDs`, push a grey `repeatCell` instruction
for the 0-based half-open row range `[rowNumber-1, rowNumber)` where
`rowNumber = i + 1`. -/
def buildUpdateRequests (sheetId : Int) (projectIDColumn : List (Option (List String)))
    (extractedProjectIDs : List String) : List RepeatCellRequest :=
  (List.range projectIDColumn.length).filterMap (fun i =>
    if i = 0 then none
    else
      match cellValue projectIDColumn i with
      | none => none
      | some cell =>
        let rowValue := jsTrim cell
        let rowNumber := i + 1
        if rowValue ≠ "" ∧ rowValue ∈ extractedProjectIDs then
          some ⟨⟨sheetId, rowNumber - 1, rowNumber⟩, GRAY_COLOR,
               "userEnteredFormat.backgroundColor"⟩
        else none)

/-- `String.fromCharCode("A".charCodeAt(0) + projectIDColumnIndex)`
(lines 113–115): the naive single-letter column-address conversion. -/
def projectIDColumnLetter (idx : Nat) : String :=
  String.singleton (Char.ofNat (65 + idx))

/-- Modelled from the spec: the general bijective base-26 column address
(`A=1 .. Z=26, AA=27, …`) that §9 of the design prescribes for a correct
implementation; absent from the source, which uses `projectIDColumnLetter`.
The first argument is recursion fuel (`n` steps always suffice). -/
def bijectiveBase26AddressAux : Nat → Nat → String
  | _, 0 => ""
  | 0, _ + 1 => ""
  | fuel + 1, n + 1 =>
    bijectiveBase26AddressAux fuel (n / 26) ++ String.singleton (Char.ofNat (65 + n % 26))

/-- Modelled from the spec: bijective base-26 address of 1-based column `n`. -/
def bijectiveBase26Address (n : Nat) : String :=
  bijectiveBase26AddressAux n n

/-- `` `${sheetTitle}!1:1` `` — the range of the header read. -/
def headerRange (title : String) : String := title ++ "!1:1"

/-- `` `${sheetTitle}!${letter}:${letter}` `` — the range of the column read. -/
def columnRange (title : String) (idx : Nat) : String :=
  title ++ "!" ++ projectIDColumnLetter idx ++ ":" ++ projectIDColumnLetter idx

/-- `sheetMetadata.data.sheets?.find(s => s.properties?.title === sheetName)`
(line 72): the first sheet whose title equals the requested name. -/
def targetSheetOf (sheetsOpt : Option (List SheetProps)) (sheetName : String) :
    Option SheetProps :=
  sheetsOpt.bind (fun ss => ss.find? (fun s => s.title == some sheetName))

/-- `headerResponse.data.values?.[0] || []` (line 96). -/
def headerRowOf (valuesOpt : Option (List (List String))) : List String :=
  (valuesOpt.bind (fun vs => vs.get? 0)).getD []

/-- `headerRow.findIndex(cell => cell.trim() === "案件ID")` (line 98),
with `-1` modelled as `none`. -/
def projectIDIndexOf (headerRow : List String) : Option Nat :=
  headerRow.findIdx? (fun cell => jsTrim cell == projectIDHeader)

/-- The JSON body of the request (line 45). -/
structure PostRequest where
  extractedProjectIDs : List String
  googleSpreadSheetID : String
  sheetName : String
  deriving Repr

/-- Responses of the four remote Google Sheets calls the handler can make,
supplied by the environment. The two value reads are keyed by the A1 range
string actually requested; `.error` models the awaited call throwing. -/
structure RemoteEnv where
  spreadsheetsGet : Except String (Option (List SheetProps))
  headerValuesGet : String → Except String (Option (List (List String)))
  columnValuesGet : String → Except String (Option (List (Option (List String))))
  batchUpdateResult : Except String Unit

/-- The HTTP response: `{success: true, message}` with status 200, or
`{error}` with the given status. -/
inductive ApiResponse where
  | success (status : Nat) (message : String)
  | failure (status : Nat) (error : String)
  deriving DecidableEq, Repr

/-- Whether the response is the success shape. -/
def ApiResponse.isSuccess : ApiResponse → Bool
  | .success _ _ => true
  | .failure _ _ => false

/-- `` `API Error: ${errorMessage}` `` (line 193), status 500. -/
def apiErrorMessage (e : String) : String := "API Error: " ++ e

/-- The 400 body when the sheet cannot be resolved (line 82). -/
def sheetNotFoundMessage (name : String) : String :=
  "Spreadsheet structure error: Sheet named \"" ++ name ++ "\" could not be found."

/-- The 400 body when no header cell trims to `案件ID` (line 105). -/
def columnNotFoundMessage : String :=
  "The column '案件ID' was not found in the first row of the sheet."

/-- The 200 body (line 181). -/
def successMessage (n : Nat) (name : String) : String :=
  toString n ++ " rows were successfully updated in the Google Sheet: " ++ name ++ "."

/-- Modelled from the spec: the success-message template §6 states literally,
`"<N> rows updated in sheet <name>"`; used only to compare the spec's wording
with the handler's actual message. -/
def specSuccessMessage (n : Nat) (name : String) : String :=
  toString n ++ " rows updated in sheet " ++ name

/-- The `POST` handler (lines 42–197). Returns the HTTP response and the
list of `batchUpdate` calls performed, each carrying the submitted
instruction batch. Control flow, in source order:

1. metadata fetch (a throw is caught at the boundary as a 500);
2. `sheets?.find(s => s.properties?.title === sheetName)`; the guard
   `!sheetTitle || sheetId === undefined` yields the 400 "sheet not found"
   body (note `!sheetTitle` is also true for the empty title);
3. header read over `title!1:1`, then `findIndex(cell => cell.trim() === "案件ID")`;
4. column read over the range built from `projectIDColumnLetter`;
5. matching via `buildUpdateRequests`; when non-empty, one `batchUpdate`
   call (whose throw is also caught as a 500), then the 200 body. -/
def POST (req : PostRequest) (env : RemoteEnv) :
    ApiResponse × List (List RepeatCellRequest) :=
  match env.spreadsheetsGet with
  | .error e => (.failure 500 (apiErrorMessage e), [])
  | .ok sheetsOpt =>
    let targetSheet := targetSheetOf sheetsOpt req.sheetName
    match targetSheet.bind (fun s => s.title), targetSheet.bind (fun s => s.sheetId) with
    | some sheetTitle, some sheetId =>
      if sheetTitle = "" then (.failure 400 (sheetNotFoundMessage req.sheetName), [])
      else
        match env.headerValuesGet (headerRange sheetTitle) with
        | .error e => (.failure 500 (apiErrorMessage e), [])
        | .ok valuesOpt =>
          let headerRow := headerRowOf valuesOpt
          match projectIDIndexOf headerRow with
          | none => (.failure 400 columnNotFoundMessage, [])
          | some projectIDColumnIndex =>
            match env.columnValuesGet (columnRange sheetTitle projectIDColumnIndex) with
            | .error e => (.failure 500 (apiErrorMessage e), [])
            | .ok colOpt =>
              let projectIDColumn := colOpt.getD []
              let updateRequests :=
                buildUpdateRequests sheetId projectIDColumn req.extractedProjectIDs
              if 0 < updateRequests.length then
                match env.batchUpdateResult with
                | .error e => (.failure 500 (apiErrorMessage e), [updateRequests])
                | .ok _ =>
                  (.success 200 (successMessage updateRequests.length req.sheetName),
                   [updateRequests])
              else
                (.success 200 (successMessage updateRequests.length req.sheetName), [])
    | _, _ => (.failure 400 (sheetNotFoundMessage req.sheetName), [])

/-! ## Helper lemmas about the matching loop -/

/-- The Boolean row-selection test of the matching loop: row index `i` is
selected when it is a data row (`i ≠ 0`) whose trimmed first cell is
non-empty and a member of the extracted identifiers. -/
def rowSelected (column : List (Option (List String))) (ids : List String) (i : Nat) : Bool :=
  !(i == 0) &&
    match cellValue column i with
    | none => false
    | some cell => decide (jsTrim cell ≠ "" ∧ jsTrim cell ∈ ids)

/-- The instruction the loop pushes for spreadsheet row `rowNumber`. -/
def grayRowRequest (sheetId : Int) (rowNumber : Nat) : RepeatCellRequest :=
  ⟨⟨sheetId, rowNumber - 1, rowNumber⟩, GRAY_COLOR, "userEnteredFormat.backgroundColor"⟩

/-- The 1-based spreadsheet row numbers the loop matches, in order. -/
def matchedRowNumbers (column : List (Option (List String))) (ids : List String) : List Nat :=
  ((List.range column.length).filter (rowSelected column ids)).map (fun i => i + 1)

/-- The specification-side matching predicate: spreadsheet row `r` (1-based,
data rows start at row 2, row `r` is stored at index `r - 1` of the column
read) has a present first cell whose trimmed value is non-empty and belongs
to the identifier list. -/
def specMatchedRow (column : List (Option (List String))) (ids : List String) (r : Nat) : Prop :=
  2 ≤ r ∧ r ≤ column.length ∧
    ∃ c, cellValue column (r - 1) = some c ∧ jsTrim c ≠ "" ∧ jsTrim c ∈ ids

theorem filterMap_if_eq_map_filter {α β : Type} (l : List α) (p : α → Bool) (f : α → β)
    (g : α → Option β) (h : ∀ a, g a = if p a then some (f a) else none) :
    l.filterMap g = (l.filter p).map f := by
  induction l with
  | nil => rfl
  | cons a l ih =>
    cases hpa : p a <;>
      simp [List.filterMap_cons, List.filter_cons, h a, hpa, ih]

theorem buildUpdateRequests_eq (s : Int) (col : List (Option (List String)))
    (ids : List String) :
    buildUpdateRequests s col ids
      = ((List.range col.length).filter (rowSelected col ids)).map
          (fun i => grayRowRequest s (i + 1)) := by
  unfold buildUpdateRequests
  refine filterMap_if_eq_map_filter _ _ _ _ (fun i => ?_)
  unfold rowSelected
  by_cases h0 : i = 0
  · simp [h0]
  · cases hcv : cellValue col i with
    | none => simp [h0, hcv]
    | some cell =>
      by_cases hsel : jsTrim cell ≠ "" ∧ jsTrim cell ∈ ids <;>
        simp [h0, hcv, hsel, grayRowRequest]

theorem rowSelected_iff (col : List (Option (List String))) (ids : List String) (i : Nat) :
    rowSelected col ids i = true
      ↔ (i ≠ 0 ∧ ∃ c, cellValue col i = some c ∧ jsTrim c ≠ "" ∧ jsTrim c ∈ ids) := by
  unfold rowSelected
  rw [Bool.and_eq_true]
  cases hcv : cellValue col i with
  | none =>
    simp only [hcv]
    constructor
    · rintro ⟨-, h⟩; cases h
    · rintro ⟨-, c, hc, -⟩; cases hc
  | some cell =>
    simp only [hcv, Bool.not_eq_true', beq_eq_false_iff_ne, ne_eq, decide_eq_true_eq]
    constructor
    · rintro ⟨h0, h1, h2⟩; exact ⟨h0, cell, rfl, h1, h2⟩
    · rintro ⟨h0, c, hc, h1, h2⟩
      cases hc
      exact ⟨h0, h1, h2⟩

theorem mem_matchedRowNumbers_iff (col : List (Option (List String))) (ids : List String)
    (r : Nat) :
    r ∈ matchedRowNumbers col ids ↔ specMatchedRow col ids r := by
  unfold matchedRowNumbers specMatchedRow
  simp only [List.mem_map, List.mem_filter, List.mem_range]
  constructor
  · rintro ⟨i, ⟨hilt, hsel⟩, rfl⟩
    obtain ⟨h0, c, hc, h1, h2⟩ := (rowSelected_iff col ids i).mp hsel
    exact ⟨by omega, by omega, c, by simpa using hc, h1, h2⟩
  · rintro ⟨h2r, hrle, c, hc, h1, hmem⟩
    refine ⟨r - 1, ⟨by omega, ?_⟩, by omega⟩
    exact (rowSelected_iff col ids (r - 1)).mpr ⟨by omega, c, hc, h1, hmem⟩

theorem mem_buildUpdateRequests_sheetId (s : Int) (col : List (Option (List String)))
    (ids : List String) :
    ∀ b ∈ buildUpdateRequests s col ids, b.range.sheetId = s := by
  rw [buildUpdateRequests_eq]
  intro b hb
  obtain ⟨i, -, rfl⟩ := List.mem_map.mp hb
  rfl

/-- **C1.** For every sheet column and identifier list, there is a
duplicate-free list of row numbers — exactly the rows `r` (1-based, from
row 2 on) whose trimmed cell is non-empty and present in the identifier
list — such that the matching loop emits exactly one formatting instruction
per such row, targeting the 0-based half-open row range `[r-1, r)` with no
column restriction and the fixed gray background, and the length of the
emitted batch (the count later reported) equals the number of such rows. -/
theorem reconciler_marks_exactly_matching_rows (s : Int)
    (col : List (Option (List String))) (ids : List String) :
    ∃ rows : List Nat,
      rows.Nodup
      ∧ (∀ r, r ∈ rows ↔ specMatchedRow col ids r)
      ∧ buildUpdateRequests s col ids = rows.map (grayRowRequest s)
      ∧ (buildUpdateRequests s col ids).length = rows.length := by
  refine ⟨matchedRowNumbers col ids, ?_, fun r => mem_matchedRowNumbers_iff col ids r, ?_, ?_⟩
  · exact ((List.nodup_range _).filter _).map (fun a b => by omega)
  · rw [buildUpdateRequests_eq, matchedRowNumbers, List.map_map]
    rfl
  · rw [buildUpdateRequests_eq, matchedRowNumbers, List.length_map, List.length_map]

/-- **C3.** The column-address conversion of the source
(`String.fromCharCode(65 + index)`) agrees with the bijective base-26
address required by the spec on the first 26 columns only: at 0-based
index 26 (the 27th column) it produces the single character `"["`
(char code 91) instead of `"AA"`. -/
theorem columnLetter_not_bijective_base26 :
    projectIDColumnLetter 26 = "["
    ∧ bijectiveBase26Address 27 = "AA"
    ∧ projectIDColumnLetter 26 ≠ bijectiveBase26Address 27
    ∧ ((List.range 26).all
        (fun i => projectIDColumnLetter i == bijectiveBase26Address (i + 1))) = true := by
  refine ⟨rfl, rfl, by decide, by decide⟩

/-- Replacing every row entry of the column read by an explicit
single-cell row holding the first cell's value, with `""` standing in for
an absent row or absent first cell. -/
def normalizeCellEntry (entry : Option (List String)) : Option (List String) :=
  some [((entry.bind List.head?).getD "")]

theorem cellValue_map_normalize (col : List (Option (List String))) (i : Nat)
    (hi : i < col.length) :
    cellValue (col.map normalizeCellEntry) i
      = some (((col.get? i).bind id).bind List.head? |>.getD "") := by
  unfold cellValue normalizeCellEntry
  rw [List.get?_map]
  cases hc : col.get? i with
  | none =>
    exact absurd (List.get?_eq_none.mp hc) (by omega)
  | some entry =>
    cases entry <;> rfl

/-- **C10.** The matching scan is a total function of the column read, and
an absent row entry or an absent first cell is treated exactly like an
empty-string cell: normalizing every row to an explicit single cell (with
`""` for anything missing) leaves the emitted batch unchanged — so a sparse
read never raises an error and never produces a match. -/
theorem matching_total_missing_cell_is_empty (s : Int)
    (col : List (Option (List String))) (ids : List String) :
    buildUpdateRequests s (col.map normalizeCellEntry) ids
      = buildUpdateRequests s col ids := by
  rw [buildUpdateRequests_eq, buildUpdateRequests_eq, List.length_map]
  have hfilter : (List.range col.length).filter (rowSelected (col.map normalizeCellEntry) ids)
      = (List.range col.length).filter (rowSelected col ids) := by
    apply List.filter_congr
    intro i hi
    have hilt : i < col.length := List.mem_range.mp hi
    unfold rowSelected
    rw [cellValue_map_normalize col i hilt]
    unfold cellValue
    cases hc : (((col.get? i).bind id).bind List.head?) with
    | none =>
      have hjs : jsTrim "" = "" := rfl
      simp [hjs]
    | some c => simp
  rw [hfilter]

theorem buildUpdateRequests_membership_congr (s : Int) (col : List (Option (List String)))
    (ids1 ids2 : List String) (h : ∀ x, x ∈ ids1 ↔ x ∈ ids2) :
    buildUpdateRequests s col ids1 = buildUpdateRequests s col ids2 := by
  rw [buildUpdateRequests_eq, buildUpdateRequests_eq]
  have hf : (List.range col.length).filter (rowSelected col ids1)
      = (List.range col.length).filter (rowSelected col ids2) := by
    apply List.filter_congr
    intro i _
    unfold rowSelected
    cases hcv : cellValue col i with
    | none => rfl
    | some cell =>
      dsimp only
      rw [decide_eq_decide.mpr (and_congr_right (fun _ => h (jsTrim cell)))]
  rw [hf]

/-- **C9.** Two identifier lists with the same membership (order and
duplicates ignored) and the same environment produce the same response and
the same batch-update calls — in particular the same set of formatting
instructions and the same reported count. -/
theorem post_depends_only_on_membership (ids1 ids2 : List String) (ssid name : String)
    (env : RemoteEnv) (h : ∀ x, x ∈ ids1 ↔ x ∈ ids2) :
    POST ⟨ids1, ssid, name⟩ env = POST ⟨ids2, ssid, name⟩ env := by
  have hb : ∀ (s : Int) (col : List (Option (List String))),
      buildUpdateRequests s col ids1 = buildUpdateRequests s col ids2 :=
    fun s col => buildUpdateRequests_membership_congr s col ids1 ids2 h
  unfold POST
  cases hss : env.spreadsheetsGet with
  | error e => rfl
  | ok ssOpt =>
    dsimp only
    cases ht : (targetSheetOf ssOpt name).bind (fun s => s.title) with
    | none =>
      cases (targetSheetOf ssOpt name).bind (fun s => s.sheetId) <;> rfl
    | some t =>
      cases hid : (targetSheetOf ssOpt name).bind (fun s => s.sheetId) with
      | none => rfl
      | some sid =>
        dsimp only
        by_cases hte : t = ""
        · rw [if_pos hte, if_pos hte]
        · rw [if_neg hte, if_neg hte]
          cases hhv : env.headerValuesGet (headerRange t) with
          | error e => rfl
          | ok hv =>
            dsimp only
            cases hix : projectIDIndexOf (headerRowOf hv) with
            | none => rfl
            | some i =>
              dsimp only
              cases hcv : env.columnValuesGet (columnRange t i) with
              | error e => rfl
              | ok cv =>
                dsimp only
                rw [hb sid (cv.getD [])]

/-- Concrete environment used by several witnesses: one sheet `"S1"` with
internal identifier `5`, header row `["案件ID"]`, and a three-row identifier
column `["案件ID", "P1", "X"]`. -/
def envW : RemoteEnv :=
  ⟨.ok (some [⟨some "S1", some 5⟩]),
   fun _ => .ok (some [["案件ID"]]),
   fun _ => .ok (some [some ["案件ID"], some ["P1"], some ["X"]]),
   .ok ()⟩

/-- Witness for C9 at a concrete input: the lists `["P1", "X", "P1"]` and
`["X", "P1"]` have the same membership, and the handler treats them
identically. -/
theorem post_depends_only_on_membership_witness :
    POST ⟨["P1", "X", "P1"], "ss", "S1"⟩ envW = POST ⟨["X", "P1"], "ss", "S1"⟩ envW := by
  refine post_depends_only_on_membership _ _ _ _ _ (fun x => ?_)
  simp only [List.mem_cons, List.not_mem_nil, or_false]
  tauto

/-! ## Helper lemmas about the extractor -/

theorem foldl_assign_of_forall_ne (l : List (String × String)) (key : String)
    (acc : Option String) (h : ∀ kv ∈ l, kv.1 ≠ key) :
    l.foldl (fun acc kv => if kv.1 = key then some kv.2 else acc) acc = acc := by
  induction l generalizing acc with
  | nil => rfl
  | cons kv l ih =>
    rw [List.foldl_cons, if_neg (h kv (List.mem_cons_self kv l))]
    exact ih acc (fun x hx => h x (List.mem_cons_of_mem kv hx))

/-- When `key` occurs in the header at exactly one position `j`, reading it
from the record of any row gives exactly cell `j` of that row (and nothing
when the row is too short). -/
theorem recordGet_of_unique (header : List String) (row : List String) (key : String)
    (j : Nat) (hget : header.get? j = some key)
    (huniq : ∀ i, header.get? i = some key → i = j) :
    recordGet header row key = row.get? j := by
  induction header generalizing row j with
  | nil => cases hget
  | cons a hs ih =>
    cases row with
    | nil =>
      rw [show recordGet (a :: hs) [] key = none from rfl]
      exact (List.get?_eq_none.mpr (by simp)).symm
    | cons r rs =>
      have hstep : recordGet (a :: hs) (r :: rs) key
          = (hs.zip rs).foldl (fun acc kv => if kv.1 = key then some kv.2 else acc)
              (if a = key then some r else none) := rfl
      cases j with
      | zero =>
        have ha : a = key := by injection hget
        have hnotail : ∀ kv ∈ hs.zip rs, kv.1 ≠ key := by
          intro kv hkv hke
          have h1 : kv.1 ∈ hs := (List.mem_zip hkv).1
          obtain ⟨i, hi⟩ := List.mem_iff_get?.mp h1
          have := huniq (i + 1) (by simpa [hke] using hi)
          omega
        rw [hstep, foldl_assign_of_forall_ne _ _ _ hnotail, if_pos ha]
        rfl
      | succ j' =>
        have ha : a ≠ key := by
          intro hak
          have := huniq 0 (by simpa using hak)
          omega
        rw [hstep, if_neg ha]
        have huniq' : ∀ i, hs.get? i = some key → i = j' := by
          intro i hi
          have := huniq (i + 1) (by simpa using hi)
          omega
        exact ih rs j' (by simpa using hget) huniq'

/-- If `p` first holds in `l` at position `j < n`, then the search over
`l.take n` finds exactly the element at `j`. -/
theorem find?_take_first (l : List String) (p : String → Bool) (j : Nat) (key : String)
    (n : Nat) (hget : l.get? j = some key) (hp : p key = true)
    (hbefore : ∀ i, i < j → ∀ b, l.get? i = some b → p b = false) (hn : j < n) :
    (l.take n).find? p = some key := by
  induction l generalizing j n with
  | nil => cases hget
  | cons a l ih =>
    cases n with
    | zero => omega
    | succ n' =>
      rw [List.take_succ_cons]
      cases j with
      | zero =>
        have ha : a = key := by injection hget
        rw [List.find?_cons_of_pos _ (ha ▸ hp), ha]
      | succ j' =>
        have ha : p a = false := hbefore 0 (by omega) a rfl
        rw [List.find?_cons_of_neg _ (by simp [ha])]
        exact ih j' n' (by simpa using hget)
          (fun i hi b hb => hbefore (i + 1) (by omega) b (by simpa using hb)) (by omega)

/-- **C2, counterexample.** The header `["a", "案件ID"]` contains the target
label (at index 1), and the claimed output — the trimmed non-empty values of
column 1, here `["B1"]` — exists; but because the first data row `["x"]` is
shorter than the header, the record the extractor takes its keys from lacks
the `案件ID` key, and the extractor fails with `headerNotFound` instead of
returning those values. -/
theorem extract_short_first_row_counterexample :
    extractProjectIDs ["a", "案件ID"] [["x"], ["y", "B1"]] = .error .headerNotFound
    ∧ (["a", "案件ID"].any (fun k => jsTrim k == projectIDHeader)) = true
    ∧ (([["x"], ["y", "B1"]] : List (List String)).map
          (fun row => jsTrim ((row.get? 1).getD ""))).filter (fun s => s ≠ "") = ["B1"] := by
  exact ⟨rfl, by decide, by decide⟩

/-- **C2, amended.** For every CSV whose header contains a field trimming to
the target label at (unique) position `j`, *provided the first non-empty
data row has more than `j` cells* (the key lookup scans the keys present in
the first data row's record), the extractor returns exactly the trimmed,
non-empty values of column `j`, in row order; a later row lacking that cell
contributes an empty value and is excluded, not a parse error. -/
theorem extract_returns_column_values (header : List String) (rows : List (List String))
    (r0 : List String) (rest : List (List String)) (j : Nat) (key : String)
    (hfilter : rows.filter (fun r => r ≠ [""]) = r0 :: rest)
    (hget : header.get? j = some key)
    (hkey : jsTrim key = projectIDHeader)
    (hbefore : ∀ i, i < j → ∀ b, header.get? i = some b → jsTrim b ≠ projectIDHeader)
    (huniq : ∀ i, header.get? i = some key → i = j)
    (hlen : j < r0.length) :
    extractProjectIDs header rows
      = .ok (((r0 :: rest).map (fun row => jsTrim ((row.get? j).getD ""))).filter
          (fun s => s ≠ "")) := by
  have hfind : (header.take r0.length).find? (fun k => jsTrim k == projectIDHeader)
      = some key := by
    refine find?_take_first header _ j key r0.length hget (by simp [hkey]) ?_ hlen
    intro i hi b hb
    simpa using hbefore i hi b hb
  have hrow : ∀ row : List String,
      (match recordGet header row key with
       | some v => if v ≠ "" then jsTrim v else ""
       | none => "") = jsTrim ((row.get? j).getD "") := by
    intro row
    rw [recordGet_of_unique header row key j hget huniq]
    cases hr : row.get? j with
    | none => rfl
    | some v =>
      by_cases hv : v = ""
      · subst hv
        rfl
      · simp only [Option.getD_some, ne_eq, hv, not_false_iff, if_true]
  unfold extractProjectIDs
  rw [hfilter]
  dsimp only
  rw [hfind]
  dsimp only
  have hmap : ((r0 :: rest).map (fun row =>
        match recordGet header row key with
        | some v => if v ≠ "" then jsTrim v else ""
        | none => ""))
      = (r0 :: rest).map (fun row => jsTrim ((row.get? j).getD "")) :=
    List.map_congr_left (fun row _ => hrow row)
  rw [hmap]

/-- Witness for the amended C2 at a concrete input: header
`["名前", "案件ID"]`, three data rows of which the second lacks the
identifier cell; the result is the trimmed non-empty column values
`["A1", "A2"]`. -/
theorem extract_returns_column_values_witness :
    extractProjectIDs ["名前", "案件ID"] [["x", " A1 "], ["y"], ["z", "A2"]]
      = .ok ["A1", "A2"] := by
  have h := extract_returns_column_values ["名前", "案件ID"]
    [["x", " A1 "], ["y"], ["z", "A2"]] ["x", " A1 "] [["y"], ["z", "A2"]] 1 "案件ID"
    rfl rfl (by decide)
    (fun i hi b hb => by
      have hi0 : i = 0 := by omega
      subst hi0
      have hb' : b = "名前" := by injection hb with hb'; exact hb'.symm
      subst hb'
      decide)
    (fun i hi => by
      match i with
      | 0 => exact absurd hi (by decide)
      | 1 => rfl
      | (n + 2) => exact nomatch hi)
    (by decide)
  rw [h]
  rfl

/-- **C7, counterexample.** A CSV whose header lacks the target label *and*
which has zero data rows fails with `emptyInput`, not `headerNotFound`: the
empty-data check precedes the header lookup. -/
theorem extract_empty_before_header_counterexample :
    extractProjectIDs ["id"] [] = .error .emptyInput
    ∧ ExtractError.emptyInput ≠ ExtractError.headerNotFound
    ∧ (["id"].all (fun k => !(jsTrim k == projectIDHeader))) = true := by
  exact ⟨rfl, by decide, by decide⟩

/-- **C7, amended.** For every CSV with at least one (non-empty) data row in
which no field's trimmed header name equals the target label, the extractor
fails with `headerNotFound`. -/
theorem extract_missing_header_fails (header : List String) (rows : List (List String))
    (r0 : List String) (rest : List (List String))
    (hfilter : rows.filter (fun r => r ≠ [""]) = r0 :: rest)
    (hnone : ∀ k ∈ header, jsTrim k ≠ projectIDHeader) :
    extractProjectIDs header rows = .error .headerNotFound := by
  have hfind : (header.take r0.length).find? (fun k => jsTrim k == projectIDHeader)
      = none := by
    rw [List.find?_eq_none]
    intro x hx
    simpa using hnone x (List.take_subset _ _ hx)
  unfold extractProjectIDs
  rw [hfilter]
  dsimp only
  rw [hfind]

/-- Witness for the amended C7 at a concrete input. -/
theorem extract_missing_header_fails_witness :
    extractProjectIDs ["id", "name"] [["1", "a"]] = .error .headerNotFound :=
  extract_missing_header_fails ["id", "name"] [["1", "a"]] ["1", "a"] [] rfl (by decide)

/-! ## Characterization of the POST pipeline -/

/-- A successful sheet resolution: the metadata call succeeded and the
matched entry passes the handler's guard — a present, non-empty title `t`
and a present internal identifier `sid`. -/
structure ResolvedSheet (req : PostRequest) (env : RemoteEnv) where
  ssOpt : Option (List SheetProps)
  t : String
  sid : Int
  hss : env.spreadsheetsGet = .ok ssOpt
  htitle : (targetSheetOf ssOpt req.sheetName).bind (fun s => s.title) = some t
  hne : t ≠ ""
  hsid : (targetSheetOf ssOpt req.sheetName).bind (fun s => s.sheetId) = some sid

/-- A request that reached the matching step: sheet resolved, header read,
label column found at index `i`, and the identifier column read as `cv`. -/
structure PipelineCtx (req : PostRequest) (env : RemoteEnv)
    extends ResolvedSheet req env where
  hv : Option (List (List String))
  i : Nat
  cv : Option (List (Option (List String)))
  hhv : env.headerValuesGet (headerRange t) = .ok hv
  hidx : projectIDIndexOf (headerRowOf hv) = some i
  hcv : env.columnValuesGet (columnRange t i) = .ok cv

/-- The full batch the handler builds once the matching step is reached. -/
def PipelineCtx.batch {req : PostRequest} {env : RemoteEnv}
    (c : PipelineCtx req env) : List RepeatCellRequest :=
  buildUpdateRequests c.sid (c.cv.getD []) req.extractedProjectIDs

/-- The handler's guard rejects the resolution: no title, empty title, or
no internal identifier on the matched entry (including no match at all). -/
def resolutionFails (req : PostRequest) (env : RemoteEnv) : Prop :=
  ∃ ssOpt, env.spreadsheetsGet = .ok ssOpt ∧
    ((targetSheetOf ssOpt req.sheetName).bind (fun s => s.title) = none
     ∨ (targetSheetOf ssOpt req.sheetName).bind (fun s => s.title) = some ""
     ∨ (targetSheetOf ssOpt req.sheetName).bind (fun s => s.sheetId) = none)

/-- Exhaustive case analysis of the handler: every run falls into exactly
one of the source's control-flow arms, with the corresponding response and
list of `batchUpdate` calls. -/
theorem POST_char (req : PostRequest) (env : RemoteEnv) :
    (∃ e, env.spreadsheetsGet = .error e
       ∧ POST req env = (.failure 500 (apiErrorMessage e), []))
    ∨ (resolutionFails req env
       ∧ POST req env = (.failure 400 (sheetNotFoundMessage req.sheetName), []))
    ∨ (∃ (r : ResolvedSheet req env) (e : String),
       env.headerValuesGet (headerRange r.t) = .error e
       ∧ POST req env = (.failure 500 (apiErrorMessage e), []))
    ∨ (∃ (r : ResolvedSheet req env) (hv : Option (List (List String))),
       env.headerValuesGet (headerRange r.t) = .ok hv
       ∧ projectIDIndexOf (headerRowOf hv) = none
       ∧ POST req env = (.failure 400 columnNotFoundMessage, []))
    ∨ (∃ (r : ResolvedSheet req env) (hv : Option (List (List String))) (i : Nat)
         (e : String),
       env.headerValuesGet (headerRange r.t) = .ok hv
       ∧ projectIDIndexOf (headerRowOf hv) = some i
       ∧ env.columnValuesGet (columnRange r.t i) = .error e
       ∧ POST req env = (.failure 500 (apiErrorMessage e), []))
    ∨ (∃ c : PipelineCtx req env,
       (c.batch = []
          ∧ POST req env
              = (.success 200 (successMessage c.batch.length req.sheetName), []))
       ∨ (∃ e, c.batch ≠ [] ∧ env.batchUpdateResult = .error e
          ∧ POST req env = (.failure 500 (apiErrorMessage e), [c.batch]))
       ∨ (c.batch ≠ [] ∧ env.batchUpdateResult = .ok ()
          ∧ POST req env
              = (.success 200 (successMessage c.batch.length req.sheetName),
                 [c.batch]))) := by
  cases hss : env.spreadsheetsGet with
  | error e =>
    refine Or.inl ⟨e, rfl, ?_⟩
    unfold POST
    rw [hss]
  | ok ssOpt =>
    cases ht : (targetSheetOf ssOpt req.sheetName).bind (fun s => s.title) with
    | none =>
      refine Or.inr (Or.inl ⟨⟨ssOpt, hss, Or.inl ht⟩, ?_⟩)
      unfold POST
      rw [hss]
      dsimp only
      rw [ht]
    | some t =>
      cases hid : (targetSheetOf ssOpt req.sheetName).bind (fun s => s.sheetId) with
      | none =>
        refine Or.inr (Or.inl ⟨⟨ssOpt, hss, Or.inr (Or.inr hid)⟩, ?_⟩)
        unfold POST
        rw [hss]
        dsimp only
        rw [ht, hid]
      | some sid =>
        by_cases hte : t = ""
        · refine Or.inr (Or.inl ⟨⟨ssOpt, hss, Or.inr (Or.inl (hte ▸ ht))⟩, ?_⟩)
          unfold POST
          rw [hss]
          dsimp only
          rw [ht, hid]
          dsimp only
          rw [if_pos hte]
        · cases hhv : env.headerValuesGet (headerRange t) with
          | error e =>
            refine Or.inr (Or.inr (Or.inl ⟨⟨ssOpt, t, sid, hss, ht, hte, hid⟩, e, hhv, ?_⟩))
            unfold POST
            rw [hss]
            dsimp only
            rw [ht, hid]
            dsimp only
            rw [if_neg hte, hhv]
          | ok hv =>
            cases hix : projectIDIndexOf (headerRowOf hv) with
            | none =>
              refine Or.inr (Or.inr (Or.inr (Or.inl ⟨⟨ssOpt, t, sid, hss, ht, hte, hid⟩, hv, hhv, hix, ?_⟩)))
              unfold POST
              rw [hss]
              dsimp only
              rw [ht, hid]
              dsimp only
              rw [if_neg hte, hhv]
              dsimp only
              rw [hix]
            | some i =>
              cases hcv : env.columnValuesGet (columnRange t i) with
              | error e =>
                refine Or.inr (Or.inr (Or.inr (Or.inr (Or.inl
                  ⟨⟨ssOpt, t, sid, hss, ht, hte, hid⟩, hv, i, e, hhv, hix, hcv, ?_⟩))))
                unfold POST
                rw [hss]
                dsimp only
                rw [ht, hid]
                dsimp only
                rw [if_neg hte, hhv]
                dsimp only
                rw [hix]
                dsimp only
                rw [hcv]
              | ok cv =>
                have hpost0 : ∀ z,
                    (if 0 < (buildUpdateRequests sid (cv.getD [])
                          req.extractedProjectIDs).length then
                       match env.batchUpdateResult with
                       | .error e => (ApiResponse.failure 500 (apiErrorMessage e),
                           [buildUpdateRequests sid (cv.getD []) req.extractedProjectIDs])
                       | .ok _ => (ApiResponse.success 200
                           (successMessage (buildUpdateRequests sid (cv.getD [])
                             req.extractedProjectIDs).length req.sheetName),
                           [buildUpdateRequests sid (cv.getD []) req.extractedProjectIDs])
                     else
                       (ApiResponse.success 200
                         (successMessage (buildUpdateRequests sid (cv.getD [])
                           req.extractedProjectIDs).length req.sheetName), [])) = z
                    → POST req env = z := by
                  intro z hz
                  unfold POST
                  rw [hss]
                  dsimp only
                  rw [ht, hid]
                  dsimp only
                  rw [if_neg hte, hhv]
                  dsimp only
                  rw [hix]
                  dsimp only
                  rw [hcv]
                  exact hz
                refine Or.inr (Or.inr (Or.inr (Or.inr (Or.inr
                  ⟨⟨⟨ssOpt, t, sid, hss, ht, hte, hid⟩, hv, i, cv, hhv, hix, hcv⟩, ?_⟩))))
                by_cases hb : buildUpdateRequests sid (cv.getD []) req.extractedProjectIDs = []
                · refine Or.inl ⟨hb, hpost0 _ ?_⟩
                  rw [if_neg (by simp [hb])]
                  rfl
                · cases hbu : env.batchUpdateResult with
                  | error e =>
                    refine Or.inr (Or.inl ⟨e, hb, rfl, hpost0 _ ?_⟩)
                    rw [if_pos (List.length_pos.mpr hb), hbu]
                    rfl
                  | ok u =>
                    cases u
                    refine Or.inr (Or.inr ⟨hb, rfl, hpost0 _ ?_⟩)
                    rw [if_pos (List.length_pos.mpr hb), hbu]
                    rfl

/-! ## Claims C4, C5, C6, C8 -/

theorem data_append_aux (s t : String) : (s ++ t).data = s.data ++ t.data := rfl

theorem sheetNotFound_ne_columnNotFound (name : String) :
    sheetNotFoundMessage name ≠ columnNotFoundMessage := by
  intro h
  have hd := congrArg String.data h
  rw [sheetNotFoundMessage, columnNotFoundMessage] at hd
  rw [data_append_aux, data_append_aux] at hd
  rw [show ("Spreadsheet structure error: Sheet named \"").data
      = 'S' :: ("preadsheet structure error: Sheet named \"").data from rfl] at hd
  rw [show ("The column '案件ID' was not found in the first row of the sheet.").data
      = 'T' :: ("he column '案件ID' was not found in the first row of the sheet.").data
      from rfl] at hd
  rw [List.cons_append] at hd
  injection hd with h1 h2
  exact absurd h1 (by decide)

/-- **C4.** Whenever the request reaches the matching step and the matching
step finds zero matching rows, the handler makes no `batchUpdate` call at
all and returns a 200 success response reporting 0 updated rows. -/
theorem zero_matches_no_mutation_success (req : PostRequest) (env : RemoteEnv)
    (c : PipelineCtx req env) (hb : c.batch = []) :
    POST req env = (.success 200 (successMessage 0 req.sheetName), []) := by
  have hb' : buildUpdateRequests c.sid (c.cv.getD []) req.extractedProjectIDs = [] := hb
  unfold POST
  rw [c.hss]
  dsimp only
  rw [c.htitle, c.hsid]
  dsimp only
  rw [if_neg c.hne, c.hhv]
  dsimp only
  rw [c.hidx]
  dsimp only
  rw [c.hcv]
  dsimp only
  rw [hb']
  rfl

/-- Request used by several witnesses whose identifier list matches no row
of `envW`'s column. -/
def reqNoMatch : PostRequest := ⟨["ZZZ"], "ss", "S1"⟩

/-- Witness for C4 at a concrete input: no row of the column matches
`["ZZZ"]`, so the trace of `batchUpdate` calls is empty and the response
reports 0 rows. -/
theorem zero_matches_no_mutation_success_witness :
    POST reqNoMatch envW = (.success 200 (successMessage 0 "S1"), []) :=
  zero_matches_no_mutation_success reqNoMatch envW
    ⟨⟨some [⟨some "S1", some 5⟩], "S1", 5, rfl, rfl, by decide, rfl⟩,
     some [["案件ID"]], 0, some [some ["案件ID"], some ["P1"], some ["X"]], rfl, rfl, rfl⟩
    (by decide)

/-- **C5.** The `batchUpdate` submission is the only mutating action, it
happens at most once per request, and only with the complete batch built
after all matching is done (never a partial prefix); whenever the request
fails, either no mutating call was made at all, or the failing step was the
submission itself (which the remote applies atomically); and whenever any
step fails — the metadata fetch, the sheet resolution, the header read, the
header-label lookup, the column read, or the submission itself — the
request returns an error response, with no mutating call made before the
failing step (conjuncts 5–10). -/
theorem post_error_propagation_and_single_submission (req : PostRequest)
    (env : RemoteEnv) :
    ((POST req env).2.length ≤ 1)
    ∧ (∀ b ∈ (POST req env).2, ∃ c : PipelineCtx req env, b = c.batch ∧ b ≠ [])
    ∧ ((POST req env).1.isSuccess = false →
        (POST req env).2 = [] ∨ ∃ e, env.batchUpdateResult = .error e)
    ∧ (∀ e, env.batchUpdateResult = .error e → (POST req env).2 ≠ [] →
        (POST req env).1.isSuccess = false)
    ∧ (∀ e, env.spreadsheetsGet = .error e →
        POST req env = (.failure 500 (apiErrorMessage e), []))
    ∧ (resolutionFails req env →
        POST req env = (.failure 400 (sheetNotFoundMessage req.sheetName), []))
    ∧ (∀ (r : ResolvedSheet req env) (e : String),
        env.headerValuesGet (headerRange r.t) = .error e →
        POST req env = (.failure 500 (apiErrorMessage e), []))
    ∧ (∀ (r : ResolvedSheet req env) (hv : Option (List (List String))),
        env.headerValuesGet (headerRange r.t) = .ok hv →
        projectIDIndexOf (headerRowOf hv) = none →
        POST req env = (.failure 400 columnNotFoundMessage, []))
    ∧ (∀ (r : ResolvedSheet req env) (hv : Option (List (List String))) (i : Nat)
         (e : String),
        env.headerValuesGet (headerRange r.t) = .ok hv →
        projectIDIndexOf (headerRowOf hv) = some i →
        env.columnValuesGet (columnRange r.t i) = .error e →
        POST req env = (.failure 500 (apiErrorMessage e), []))
    ∧ (∀ (c : PipelineCtx req env) (e : String), c.batch ≠ [] →
        env.batchUpdateResult = .error e →
        POST req env = (.failure 500 (apiErrorMessage e), [c.batch])) := by
  have hmain : ((POST req env).2.length ≤ 1)
      ∧ (∀ b ∈ (POST req env).2, ∃ c : PipelineCtx req env, b = c.batch ∧ b ≠ [])
      ∧ ((POST req env).1.isSuccess = false →
          (POST req env).2 = [] ∨ ∃ e, env.batchUpdateResult = .error e)
      ∧ (∀ e, env.batchUpdateResult = .error e → (POST req env).2 ≠ [] →
          (POST req env).1.isSuccess = false) := by
    rcases POST_char req env with ⟨e, -, hP⟩ | ⟨-, hP⟩ | ⟨r, e, -, hP⟩ |
      ⟨r, hv, -, -, hP⟩ | ⟨r, hv, i, e, -, -, -, hP⟩ | ⟨c, hcase⟩
    · rw [hP]
      exact ⟨by simp, by simp, fun _ => Or.inl rfl, fun _ _ hne => absurd rfl hne⟩
    · rw [hP]
      exact ⟨by simp, by simp, fun _ => Or.inl rfl, fun _ _ hne => absurd rfl hne⟩
    · rw [hP]
      exact ⟨by simp, by simp, fun _ => Or.inl rfl, fun _ _ hne => absurd rfl hne⟩
    · rw [hP]
      exact ⟨by simp, by simp, fun _ => Or.inl rfl, fun _ _ hne => absurd rfl hne⟩
    · rw [hP]
      exact ⟨by simp, by simp, fun _ => Or.inl rfl, fun _ _ hne => absurd rfl hne⟩
    · rcases hcase with ⟨hb, hP⟩ | ⟨e, hb, hbu, hP⟩ | ⟨hb, hbu, hP⟩
      · rw [hP]
        exact ⟨by simp, by simp, fun _ => Or.inl rfl, fun _ _ hne => absurd rfl hne⟩
      · rw [hP]
        refine ⟨by simp, ?_, fun _ => Or.inr ⟨e, hbu⟩, fun _ _ _ => rfl⟩
        intro b hbmem
        rw [List.mem_singleton] at hbmem
        exact ⟨c, hbmem, hbmem ▸ hb⟩
      · rw [hP]
        refine ⟨by simp, ?_, ?_, ?_⟩
        · intro b hbmem
          rw [List.mem_singleton] at hbmem
          exact ⟨c, hbmem, hbmem ▸ hb⟩
        · intro hfalse
          cases hfalse
        · intro e he
          rw [hbu] at he
          cases he
  refine ⟨hmain.1, hmain.2.1, hmain.2.2.1, hmain.2.2.2, ?_, ?_, ?_, ?_, ?_, ?_⟩
  · intro e he
    unfold POST
    rw [he]
  · rintro ⟨ssOpt, hss, hdisj⟩
    unfold POST
    rw [hss]
    dsimp only
    rcases hdisj with ht' | ht' | hsid'
    · rw [ht']
    · rw [ht']
      cases hid : (targetSheetOf ssOpt req.sheetName).bind (fun s => s.sheetId) with
      | none => rfl
      | some sid =>
        dsimp only
        have h0 : ("" : String) = "" := rfl
        rw [if_pos h0]
    · cases htt : (targetSheetOf ssOpt req.sheetName).bind (fun s => s.title) with
      | none => rfl
      | some t => rw [hsid']
  · intro r e he
    unfold POST
    rw [r.hss]
    dsimp only
    rw [r.htitle, r.hsid]
    dsimp only
    rw [if_neg r.hne, he]
  · intro r hv hhv hidx
    unfold POST
    rw [r.hss]
    dsimp only
    rw [r.htitle, r.hsid]
    dsimp only
    rw [if_neg r.hne, hhv]
    dsimp only
    rw [hidx]
  · intro r hv i e hhv hidx hcv
    unfold POST
    rw [r.hss]
    dsimp only
    rw [r.htitle, r.hsid]
    dsimp only
    rw [if_neg r.hne, hhv]
    dsimp only
    rw [hidx]
    dsimp only
    rw [hcv]
  · intro c e hb hbu
    have hb' : buildUpdateRequests c.sid (c.cv.getD []) req.extractedProjectIDs ≠ [] := hb
    unfold POST
    rw [c.hss]
    dsimp only
    rw [c.htitle, c.hsid]
    dsimp only
    rw [if_neg c.hne, c.hhv]
    dsimp only
    rw [c.hidx]
    dsimp only
    rw [c.hcv]
    dsimp only
    rw [if_pos (List.length_pos.mpr hb'), hbu]
    rfl

/-- Environment whose `batchUpdate` call fails. -/
def envWbatchFail : RemoteEnv :=
  ⟨.ok (some [⟨some "S1", some 5⟩]),
   fun _ => .ok (some [["案件ID"]]),
   fun _ => .ok (some [some ["案件ID"], some ["P1"]]),
   .error "quota"⟩

/-- Environment whose header read fails. -/
def envWheaderFail : RemoteEnv :=
  ⟨.ok (some [⟨some "S1", some 5⟩]),
   fun _ => .error "boom",
   fun _ => .ok none,
   .ok ()⟩

/-- Witness for C5 at concrete inputs: a failing submission surfaces as a
failure response, and a failing header read yields the 500 response with no
mutating call. -/
theorem post_error_propagation_and_single_submission_witness :
    (POST ⟨["P1"], "ss", "S1"⟩ envWbatchFail).1.isSuccess = false
    ∧ POST ⟨["P1"], "ss", "S1"⟩ envWheaderFail
        = (.failure 500 (apiErrorMessage "boom"), []) :=
  ⟨(post_error_propagation_and_single_submission ⟨["P1"], "ss", "S1"⟩
      envWbatchFail).2.2.2.1 "quota" rfl (by decide),
   (post_error_propagation_and_single_submission ⟨["P1"], "ss", "S1"⟩
      envWheaderFail).2.2.2.2.2.2.1
     ⟨some [⟨some "S1", some 5⟩], "S1", 5, rfl, rfl, by decide, rfl⟩ "boom" rfl⟩

/-- Environment of the C6 counterexample: one sheet whose title is the empty
string, with a valid internal identifier. -/
def envEmptyTitle : RemoteEnv :=
  ⟨.ok (some [⟨some "", some 7⟩]), fun _ => .ok none, fun _ => .ok none, .ok ()⟩

/-- **C6, counterexample.** The spreadsheet's sheet list contains an entry
whose title is exactly the requested name (the empty string) together with
an internal identifier, yet resolution fails with the SheetNotFound
response: the source's guard `!sheetTitle` also rejects a matched sheet
whose title is falsy. -/
theorem sheet_resolution_counterexample :
    targetSheetOf (some [⟨some "", some 7⟩]) "" = some ⟨some "", some 7⟩
    ∧ (POST ⟨[], "ss", ""⟩ envEmptyTitle).1 = .failure 400 (sheetNotFoundMessage "") :=
  ⟨rfl, by decide⟩

/-- **C6, amended.** Sheet resolution fails with the SheetNotFound response
(and performs zero mutations) whenever no entry's title equals the
requested `sheetName`; and — provided `sheetName` is non-empty and the
matched entry carries an internal identifier — when a matching entry
exists, the request does not fail with SheetNotFound and every formatting
instruction of every mutating call carries that entry's identifier. -/
theorem sheet_resolution_amended (req : PostRequest) (env : RemoteEnv)
    (ssOpt : Option (List SheetProps)) (hss : env.spreadsheetsGet = .ok ssOpt) :
    (targetSheetOf ssOpt req.sheetName = none →
       POST req env = (.failure 400 (sheetNotFoundMessage req.sheetName), []))
    ∧ (∀ entry sid, targetSheetOf ssOpt req.sheetName = some entry →
        entry.sheetId = some sid → req.sheetName ≠ "" →
        ((POST req env).1 ≠ .failure 400 (sheetNotFoundMessage req.sheetName)
         ∧ ∀ b ∈ (POST req env).2, ∀ x ∈ b, x.range.sheetId = sid)) := by
  constructor
  · intro hfind
    unfold POST
    rw [hss]
    dsimp only
    rw [show (targetSheetOf ssOpt req.sheetName).bind (fun s => s.title) = none from by
          rw [hfind]; rfl,
        show (targetSheetOf ssOpt req.sheetName).bind (fun s => s.sheetId) = none from by
          rw [hfind]; rfl]
  · intro entry sid hfind hsid hname
    have htitle : entry.title = some req.sheetName := by
      obtain ⟨ss, -, hfnd⟩ := Option.bind_eq_some.mp hfind
      have hp := List.find?_some hfnd
      have hp' : (entry.title == some req.sheetName) = true := hp
      exact eq_of_beq hp'
    have hbt : (targetSheetOf ssOpt req.sheetName).bind (fun s => s.title)
        = some req.sheetName := by
      rw [hfind, Option.some_bind, htitle]
    have hbs : (targetSheetOf ssOpt req.sheetName).bind (fun s => s.sheetId)
        = some sid := by
      rw [hfind, Option.some_bind, hsid]
    rcases POST_char req env with ⟨e, hss', -⟩ | ⟨⟨ssOpt', hss', hdisj⟩, hP⟩ |
      ⟨r, e, -, hP⟩ | ⟨r, hv, -, -, hP⟩ | ⟨r, hv, i, e, -, -, -, hP⟩ | ⟨c, hcase⟩
    · rw [hss] at hss'
      cases hss'
    · rw [hss] at hss'
      injection hss' with hsseq
      subst hsseq
      rcases hdisj with ht' | ht' | ht'
      · rw [hbt] at ht'
        cases ht'
      · rw [hbt] at ht'
        injection ht' with ht''
        exact absurd ht'' hname
      · rw [hbs] at ht'
        cases ht'
    · rw [hP]
      refine ⟨fun h => ?_, by simp⟩
      injection h with hstat
      omega
    · rw [hP]
      refine ⟨fun h => ?_, by simp⟩
      injection h with hstat hmsg
      exact absurd hmsg.symm (sheetNotFound_ne_columnNotFound req.sheetName)
    · rw [hP]
      refine ⟨fun h => ?_, by simp⟩
      injection h with hstat
      omega
    · have hcsid : c.sid = sid := by
        have h1 := c.hss
        rw [hss] at h1
        injection h1 with h1'
        have h2 := c.hsid
        rw [h1'] at hbs
        rw [hbs] at h2
        injection h2 with h2'
        exact h2'.symm
      have hmut : ∀ b ∈ [c.batch], ∀ x ∈ b, x.range.sheetId = sid := by
        intro b hbmem x hx
        rw [List.mem_singleton] at hbmem
        subst hbmem
        have := mem_buildUpdateRequests_sheetId c.sid (c.cv.getD [])
          req.extractedProjectIDs x hx
        rw [this, hcsid]
      rcases hcase with ⟨hb, hP⟩ | ⟨e, hb, hbu, hP⟩ | ⟨hb, hbu, hP⟩
      · rw [hP]
        exact ⟨(fun h => by cases h), by simp⟩
      · rw [hP]
        refine ⟨fun h => ?_, hmut⟩
        injection h with hstat
        omega
      · rw [hP]
        exact ⟨(fun h => by cases h), hmut⟩

/-- Witness for the amended C6 at a concrete input: the sheet `"S1"`
resolves, the request does not fail with SheetNotFound, and the emitted
instruction targets the resolved identifier `5`. -/
theorem sheet_resolution_amended_witness :
    (POST ⟨["P1"], "ss", "S1"⟩ envW).1 ≠ .failure 400 (sheetNotFoundMessage "S1")
    ∧ ∀ b ∈ (POST ⟨["P1"], "ss", "S1"⟩ envW).2, ∀ x ∈ b, x.range.sheetId = 5 :=
  (sheet_resolution_amended ⟨["P1"], "ss", "S1"⟩ envW (some [⟨some "S1", some 5⟩])
    rfl).2 ⟨some "S1", some 5⟩ 5 rfl rfl (by decide)

/-- **C8, counterexample.** A request that completes without error: the
response is `success` with the handler's actual message
`"0 rows were successfully updated in the Google Sheet: S1."`, which is not
the spec's literal template `"0 rows updated in sheet S1"`. -/
theorem success_message_counterexample :
    (POST reqNoMatch envW).1 = .success 200 (successMessage 0 "S1")
    ∧ successMessage 0 "S1" ≠ specSuccessMessage 0 "S1" :=
  ⟨by decide, by decide⟩

/-- **C8, amended.** Every request that completes without error returns
status 200 with body `{success: true, message}` where the message is
`"<N> rows were successfully updated in the Google Sheet: <name>."`, `N`
being the length of the batch built by the matching step (one instruction
per matched row) and `<name>` the requested sheet name. -/
theorem success_message_form (req : PostRequest) (env : RemoteEnv) (st : Nat)
    (m : String) (h : (POST req env).1 = .success st m) :
    st = 200 ∧ ∃ c : PipelineCtx req env,
      m = successMessage c.batch.length req.sheetName := by
  rcases POST_char req env with ⟨e, -, hP⟩ | ⟨-, hP⟩ | ⟨r, e, -, hP⟩ |
    ⟨r, hv, -, -, hP⟩ | ⟨r, hv, i, e, -, -, -, hP⟩ | ⟨c, hcase⟩
  · rw [hP] at h
    cases h
  · rw [hP] at h
    cases h
  · rw [hP] at h
    cases h
  · rw [hP] at h
    cases h
  · rw [hP] at h
    cases h
  · rcases hcase with ⟨hb, hP⟩ | ⟨e, hb, hbu, hP⟩ | ⟨hb, hbu, hP⟩
    · rw [hP] at h
      injection h with h1 h2
      exact ⟨h1.symm, c, h2.symm⟩
    · rw [hP] at h
      cases h
    · rw [hP] at h
      injection h with h1 h2
      exact ⟨h1.symm, c, h2.symm⟩

/-- Witness for the amended C8 at a concrete input: the run with one match
reports `"1 rows were successfully updated in the Google Sheet: S1."`. -/
theorem success_message_form_witness :
    200 = 200 ∧ ∃ c : PipelineCtx ⟨["P1"], "ss", "S1"⟩ envW,
      successMessage 1 "S1" = successMessage c.batch.length "S1" :=
  success_message_form ⟨["P1"], "ss", "S1"⟩ envW 200 (successMessage 1 "S1") rfl

end JobGrazer
